import Mathlib

/-!
Verification of the page-range extraction pipeline of the PDF split tool
(`pdf_tool_mcp_server.py`): parameter validation, document opening,
range resolution, per-page text aggregation and optional sub-document
serialization.

The external world (filesystem and PDF codec) is modelled by an `Env`
record; the pipeline is instrumented with an event trace recording every
filesystem/codec interaction, so that claims about the absence or the
order of I/O are statable.
-/

namespace PdfTool

/-- A page of an opened document.  The codec's per-page text extraction
(`page.extract_text()`) may fail, which the source surfaces as an
exception; here it is an `Except`. -/
structure Page where
  extractText : Except String String

/-- The external collaborators of the pipeline: filesystem existence
check (`os.path.exists`), the codec's document opener (`PdfReader`,
returning the list of pages or a failure reason), and output-file
serialization (`open(new_file_path, "wb")` + `writer.write(f)`,
which may fail with an I/O reason). -/
structure Env where
  pathExists : String → Bool
  openDoc : String → Except String (List Page)
  writeFile : String → Except String Unit

/-- Observable filesystem/codec interactions of one invocation, in
order of occurrence. -/
inductive Event where
  | checkExists (path : String)
  | openDoc (path : String)
  | writeFile (path : String)
deriving DecidableEq, Repr

/-- The validated parameter record (the pydantic model `PDFSplitParams`). -/
structure PDFSplitParams where
  file_path : String
  start_page : Int
  end_page : Int
  save_pdf : Bool
deriving DecidableEq, Repr

/-- Python's `str.strip()`: the string with leading and trailing
whitespace removed. -/
def pyStrip (s : String) : String :=
  String.mk
    (((s.data.dropWhile Char.isWhitespace).reverse.dropWhile
        Char.isWhitespace).reverse)

/-- Embedding of the pydantic validation of `PDFSplitParams`: fields are
checked in declaration order — `file_path` must be non-blank after
stripping whitespace (validator `file_path_must_not_be_empty`, which
tests `not v.strip()`), the `ge=1` bounds on `start_page` and
`end_page`, then the field validator
`end_page_must_be_greater_or_equal_to_start`.  On failure the pydantic
`ValidationError` is rendered as a reason string; on success every field
is returned unchanged (the validators `return v`). -/
def validateParams (file_path : String) (start_page end_page : Int)
    (save_pdf : Bool) : Except String PDFSplitParams :=
  if pyStrip file_path = "" then
    Except.error "file_path cannot be empty or whitespace only"
  else if start_page < 1 then
    Except.error "start_page: Input should be greater than or equal to 1"
  else if end_page < 1 then
    Except.error "end_page: Input should be greater than or equal to 1"
  else if end_page < start_page then
    Except.error "end_page must be greater than or equal to start_page"
  else
    Except.ok ⟨file_path, start_page, end_page, save_pdf⟩

/-- The 0-indexed page indices visited by the loop
`for i in range(params.start_page - 1, params.end_page)`. -/
def rangeIdx (s e : Int) : List Nat :=
  List.range' (s - 1).toNat (e - (s - 1)).toNat

/-- The formatted per-page record
`f"--- Page {i + 1} ---\n{page.extract_text()}"` for 0-indexed page `i`
whose extracted text is `text`. -/
def pageRecord (i : Nat) (text : String) : String :=
  "--- Page " ++ toString (i + 1) ++ " ---\n" ++ text

/-- The aggregation loop body: for each index, access `reader.pages[i]`
(an out-of-range access raises, modelled by the `none` branch), extract
the page text (which may raise), and append the formatted record.  The
first failure aborts the whole loop, discarding every record built so
far. -/
def splitLoop (pages : List Page) : List Nat → Except String (List String)
  | [] => Except.ok []
  | i :: rest =>
    match pages[i]? with
    | none => Except.error "sequence index out of range"
    | some pg =>
      match pg.extractText with
      | Except.error msg => Except.error msg
      | Except.ok text =>
        match splitLoop pages rest with
        | Except.error msg => Except.error msg
        | Except.ok parts => Except.ok (pageRecord i text :: parts)

/-- Split a character list on the slash separator (the component list
of a POSIX path). -/
def splitOnSlash : List Char → List (List Char)
  | [] => [[]]
  | c :: cs =>
    match splitOnSlash cs with
    | [] => [[]]
    | h :: t => if c = '/' then [] :: h :: t else (c :: h) :: t

/-- Join path components back with slashes. -/
def joinSlash : List (List Char) → List Char
  | [] => []
  | [x] => x
  | x :: xs => x ++ '/' :: joinSlash xs

/-- The name (final component) of a POSIX path, as in `pathlib`. -/
def pathName (p : String) : String :=
  match (splitOnSlash p.data).getLast? with
  | some n => String.mk n
  | none => p

/-- The parent directory of a POSIX path, as in `pathlib.Path.parent`:
everything before the final component, `"."` for a bare file name,
`"/"` for a file at the root. -/
def pathParent (p : String) : String :=
  let parts := splitOnSlash p.data
  if parts.length ≤ 1 then "."
  else
    let dir := joinSlash parts.dropLast
    if dir = [] then "/" else String.mk dir

/-- Position of the last dot of a character list, if any. -/
def lastDotIdx : List Char → Option Nat
  | [] => none
  | c :: cs =>
    match lastDotIdx cs with
    | some i => some (i + 1)
    | none => if c = '.' then some 0 else none

/-- The extension of a POSIX path, as in `pathlib.Path.suffix`: the final
component from its last dot on, provided that dot is neither leading nor
trailing; otherwise empty. -/
def pathSuffix (p : String) : String :=
  let cs := (pathName p).toList
  match lastDotIdx cs with
  | some i => if 0 < i ∧ i + 1 < cs.length then String.mk (cs.drop i) else ""
  | none => ""

/-- The final component without its extension, as in
`pathlib.Path.stem`. -/
def pathStem (p : String) : String :=
  let cs := (pathName p).toList
  match lastDotIdx cs with
  | some i => if 0 < i ∧ i + 1 < cs.length then String.mk (cs.take i) else String.mk cs
  | none => String.mk cs

/-- `pathlib`'s `/` operator for joining a parent directory with a file
name. -/
def pathJoin (dir child : String) : String :=
  if dir = "." then child
  else if dir = "/" then "/" ++ child
  else dir ++ "/" ++ child

/-- The derived output path of the sub-document writer:
`Path(file_path).parent / (stem + "_pgs_" + start + "-" + end + suffix)`. -/
def newFilePath (file_path : String) (s e : Int) : String :=
  pathJoin (pathParent file_path)
    (pathStem file_path ++ "_pgs_" ++ toString s ++ "-" ++ toString e
      ++ pathSuffix file_path)

/-- The result-string prefix of a successful extraction. -/
def successHeader : String := "Content from new PDF:\n\n"

/-- The tool operation `open_and_split_pdf`, returning the result string
together with the trace of filesystem/codec events it performed, in
order.  Faithful to the source control flow: validation first (failures
caught and stringified before any I/O), then the existence check, the
codec open, the range check against the page count, the aggregation
loop, the optional save, and the success string; every exception of the
inner block is caught and rendered as the `Error reading PDF` string. -/
def open_and_split_pdf (env : Env) (file_path : String)
    (start_page end_page : Int) (save_pdf : Bool) : String × List Event :=
  match validateParams file_path start_page end_page save_pdf with
  | Except.error msg => ("Error: Invalid input parameters - " ++ msg, [])
  | Except.ok params =>
    if env.pathExists params.file_path = false then
      ("Error: File \x27" ++ params.file_path ++ "\x27 does not exist",
       [Event.checkExists params.file_path])
    else
      match env.openDoc params.file_path with
      | Except.error msg =>
        ("Error reading PDF \x27" ++ params.file_path ++ "\x27: " ++ msg,
         [Event.checkExists params.file_path, Event.openDoc params.file_path])
      | Except.ok pages =>
        let trace := [Event.checkExists params.file_path,
                      Event.openDoc params.file_path]
        if params.end_page > (pages.length : Int) then
          ("Error reading PDF \x27" ++ params.file_path ++ "\x27: Requested page "
             ++ toString params.end_page ++ " exceeds the document length ("
             ++ toString pages.length ++ " pages).", trace)
        else
          match splitLoop pages (rangeIdx params.start_page params.end_page) with
          | Except.error msg =>
            ("Error reading PDF \x27" ++ params.file_path ++ "\x27: " ++ msg, trace)
          | Except.ok parts =>
            if params.save_pdf then
              let np := newFilePath params.file_path params.start_page params.end_page
              match env.writeFile np with
              | Except.error msg =>
                ("Error reading PDF \x27" ++ params.file_path ++ "\x27: " ++ msg,
                 trace ++ [Event.writeFile np])
              | Except.ok _ =>
                (successHeader ++ String.intercalate "\n" parts,
                 trace ++ [Event.writeFile np])
            else
              (successHeader ++ String.intercalate "\n" parts, trace)

/-! ### Helper lemmas -/

/-- Validation succeeds on a non-blank path and a well-ordered range,
returning every field unchanged. -/
theorem validateParams_ok (fp : String) (s e : Int) (sv : Bool)
    (hfp : ¬ pyStrip fp = "") (hs : 1 ≤ s) (hse : s ≤ e) :
    validateParams fp s e sv = Except.ok ⟨fp, s, e, sv⟩ := by
  unfold validateParams
  rw [if_neg hfp, if_neg (by omega), if_neg (by omega), if_neg (by omega)]

/-- When every visited index holds a page whose extraction succeeds, the
loop returns the records of all visited pages, in visiting order. -/
theorem splitLoop_ok (pages : List Page) (t : Nat → String) :
    ∀ idx : List Nat,
      (∀ i ∈ idx, ∃ pg, pages[i]? = some pg ∧ pg.extractText = Except.ok (t i)) →
      splitLoop pages idx = Except.ok (idx.map (fun i => pageRecord i (t i)))
  | [], _ => rfl
  | i :: rest, h => by
    obtain ⟨pg, hpg, hext⟩ := h i (List.mem_cons_self i rest)
    have ih := splitLoop_ok pages t rest (fun j hj => h j (List.mem_cons_of_mem i hj))
    simp [splitLoop, hpg, hext, ih]

/-- When extraction succeeds on every index before some index `i` and
fails at `i`, the loop aborts with that failure, discarding all records
built so far. -/
theorem splitLoop_err (pages : List Page) (msg : String) (i : Nat)
    (post : List Nat) :
    ∀ pre : List Nat,
      (∀ j ∈ pre, ∃ pg txt, pages[j]? = some pg ∧ pg.extractText = Except.ok txt) →
      (∃ pg, pages[i]? = some pg ∧ pg.extractText = Except.error msg) →
      splitLoop pages (pre ++ i :: post) = Except.error msg
  | [], _, hfail => by
    obtain ⟨pg, hpg, hext⟩ := hfail
    simp [splitLoop, hpg, hext]
  | j :: pre, hpre, hfail => by
    obtain ⟨pg, txt, hpg, hext⟩ := hpre j (List.mem_cons_self j pre)
    have ih := splitLoop_err pages msg i post pre
      (fun j hj => hpre j (List.mem_cons_of_mem _ hj)) hfail
    simp [splitLoop, hpg, hext, ih]

/-- Run helper: a validation failure is returned as an
`Invalid input parameters` string before any event is emitted. -/
theorem run_validation_failure (env : Env) (fp : String) (s e : Int)
    (sv : Bool) (msg : String)
    (hval : validateParams fp s e sv = Except.error msg) :
    open_and_split_pdf env fp s e sv =
      ("Error: Invalid input parameters - " ++ msg, []) := by
  unfold open_and_split_pdf
  rw [hval]

/-- Run helper: a validated request on an absent path yields the
not-found string after exactly the existence check. -/
theorem run_not_found (env : Env) (fp : String) (s e : Int) (sv : Bool)
    (hfp : ¬ pyStrip fp = "") (hs : 1 ≤ s) (hse : s ≤ e)
    (hex : env.pathExists fp = false) :
    open_and_split_pdf env fp s e sv =
      ("Error: File \x27" ++ fp ++ "\x27 does not exist",
       [Event.checkExists fp]) := by
  unfold open_and_split_pdf
  rw [validateParams_ok fp s e sv hfp hs hse]
  simp [hex]

/-- Run helper: a codec failure while opening the document yields the
reading-error string after the existence check and the open attempt. -/
theorem run_open_failure (env : Env) (fp : String) (s e : Int) (sv : Bool)
    (msg : String)
    (hfp : ¬ pyStrip fp = "") (hs : 1 ≤ s) (hse : s ≤ e)
    (hex : env.pathExists fp = true)
    (hopen : env.openDoc fp = Except.error msg) :
    open_and_split_pdf env fp s e sv =
      ("Error reading PDF \x27" ++ fp ++ "\x27: " ++ msg,
       [Event.checkExists fp, Event.openDoc fp]) := by
  unfold open_and_split_pdf
  rw [validateParams_ok fp s e sv hfp hs hse]
  simp [hex, hopen]

/-- Run helper: a range exceeding the page count yields the
range-exceeded string and no further event. -/
theorem run_range_exceeded (env : Env) (fp : String) (s e : Int) (sv : Bool)
    (pages : List Page)
    (hfp : ¬ pyStrip fp = "") (hs : 1 ≤ s) (hse : s ≤ e)
    (hex : env.pathExists fp = true)
    (hopen : env.openDoc fp = Except.ok pages)
    (hgt : (pages.length : Int) < e) :
    open_and_split_pdf env fp s e sv =
      ("Error reading PDF \x27" ++ fp ++ "\x27: Requested page " ++ toString e
         ++ " exceeds the document length (" ++ toString pages.length
         ++ " pages).",
       [Event.checkExists fp, Event.openDoc fp]) := by
  unfold open_and_split_pdf
  rw [validateParams_ok fp s e sv hfp hs hse]
  simp [hex, hopen, hgt]

/-- Run helper: an aborting aggregation loop yields the reading-error
string carrying the loop's failure reason. -/
theorem run_loop_failure (env : Env) (fp : String) (s e : Int) (sv : Bool)
    (pages : List Page) (msg : String)
    (hfp : ¬ pyStrip fp = "") (hs : 1 ≤ s) (hse : s ≤ e)
    (hex : env.pathExists fp = true)
    (hopen : env.openDoc fp = Except.ok pages)
    (hle : e ≤ (pages.length : Int))
    (hloop : splitLoop pages (rangeIdx s e) = Except.error msg) :
    open_and_split_pdf env fp s e sv =
      ("Error reading PDF \x27" ++ fp ++ "\x27: " ++ msg,
       [Event.checkExists fp, Event.openDoc fp]) := by
  unfold open_and_split_pdf
  rw [validateParams_ok fp s e sv hfp hs hse]
  simp only [hex, Bool.true_eq_false, if_false, hopen]
  rw [if_neg (by omega)]
  rw [hloop]

/-- Run helper: a successful loop with `save_pdf = false` returns the
joined records and performs no write. -/
theorem run_success_nosave (env : Env) (fp : String) (s e : Int)
    (pages : List Page) (parts : List String)
    (hfp : ¬ pyStrip fp = "") (hs : 1 ≤ s) (hse : s ≤ e)
    (hex : env.pathExists fp = true)
    (hopen : env.openDoc fp = Except.ok pages)
    (hle : e ≤ (pages.length : Int))
    (hloop : splitLoop pages (rangeIdx s e) = Except.ok parts) :
    open_and_split_pdf env fp s e false =
      (successHeader ++ String.intercalate "\n" parts,
       [Event.checkExists fp, Event.openDoc fp]) := by
  unfold open_and_split_pdf
  rw [validateParams_ok fp s e false hfp hs hse]
  simp only [hex, Bool.true_eq_false, if_false, hopen]
  rw [if_neg (by omega)]
  rw [hloop]
  simp

/-- Run helper: a successful loop with `save_pdf = true` and a
successful serialization returns the joined records after writing the
derived output path. -/
theorem run_success_save (env : Env) (fp : String) (s e : Int)
    (pages : List Page) (parts : List String)
    (hfp : ¬ pyStrip fp = "") (hs : 1 ≤ s) (hse : s ≤ e)
    (hex : env.pathExists fp = true)
    (hopen : env.openDoc fp = Except.ok pages)
    (hle : e ≤ (pages.length : Int))
    (hloop : splitLoop pages (rangeIdx s e) = Except.ok parts)
    (hwr : env.writeFile (newFilePath fp s e) = Except.ok ()) :
    open_and_split_pdf env fp s e true =
      (successHeader ++ String.intercalate "\n" parts,
       [Event.checkExists fp, Event.openDoc fp,
        Event.writeFile (newFilePath fp s e)]) := by
  unfold open_and_split_pdf
  rw [validateParams_ok fp s e true hfp hs hse]
  simp only [hex, Bool.true_eq_false, if_false, hopen]
  rw [if_neg (by omega)]
  rw [hloop]
  simp [hwr]

/-- Run helper: a successful loop with `save_pdf = true` and a failing
serialization aborts with the reading-error string carrying the write
failure; the computed records are not returned. -/
theorem run_write_failure (env : Env) (fp : String) (s e : Int)
    (pages : List Page) (parts : List String) (msg : String)
    (hfp : ¬ pyStrip fp = "") (hs : 1 ≤ s) (hse : s ≤ e)
    (hex : env.pathExists fp = true)
    (hopen : env.openDoc fp = Except.ok pages)
    (hle : e ≤ (pages.length : Int))
    (hloop : splitLoop pages (rangeIdx s e) = Except.ok parts)
    (hwr : env.writeFile (newFilePath fp s e) = Except.error msg) :
    open_and_split_pdf env fp s e true =
      ("Error reading PDF \x27" ++ fp ++ "\x27: " ++ msg,
       [Event.checkExists fp, Event.openDoc fp,
        Event.writeFile (newFilePath fp s e)]) := by
  unfold open_and_split_pdf
  rw [validateParams_ok fp s e true hfp hs hse]
  simp only [hex, Bool.true_eq_false, if_false, hopen]
  rw [if_neg (by omega)]
  rw [hloop]
  simp [hwr]

/-- Shifting a string prefix across an append. -/
theorem prefix_shift (p q r x : String) (h : p = q ++ r) :
    p ++ x = q ++ (r ++ x) := by
  rw [h, String.append_assoc]

/-- The visited records, re-indexed by 1-based page number: the records
of the visited 0-indexed pages are exactly the records of the 1-indexed
pages `s, s+1, …, e`, in ascending order. -/
theorem rangeIdx_map_records (s e : Int) (t : Nat → String)
    (hs : 1 ≤ s) (hse : s ≤ e) :
    (rangeIdx s e).map (fun i => pageRecord i (t i)) =
      (List.range' s.toNat (e - s + 1).toNat).map
        (fun n => "--- Page " ++ toString n ++ " ---\n" ++ t (n - 1)) := by
  unfold rangeIdx
  have h1 : (e - (s - 1)).toNat = (e - s + 1).toNat := by omega
  have h2 : s.toNat = 1 + (s - 1).toNat := by omega
  rw [h1, h2, ← List.map_add_range', List.map_map]
  apply List.map_congr_left
  intro a _
  have h3 : 1 + a = a + 1 := Nat.add_comm 1 a
  simp [pageRecord, Function.comp, h3]

/-- Concrete environments used to instantiate the theorems. -/
def pageOk (t : String) : Page := ⟨Except.ok t⟩

/-- A page whose text extraction fails with the given reason. -/
def pageBad (m : String) : Page := ⟨Except.error m⟩

/-- Every path absent; opening and writing fail. -/
def envAbsent : Env :=
  ⟨fun _ => false, fun _ => Except.error "unreachable", fun _ => Except.error "unreachable"⟩

/-- Every path present; a fixed five-page document, all extractions and
writes succeeding. -/
def envFive : Env :=
  ⟨fun _ => true,
   fun _ => Except.ok [pageOk "A", pageOk "B", pageOk "C", pageOk "D", pageOk "E"],
   fun _ => Except.ok ()⟩

/-- Every path present; a three-page document whose second page fails to
extract. -/
def envExtractFail : Env :=
  ⟨fun _ => true,
   fun _ => Except.ok [pageOk "A", pageBad "boom", pageOk "C"],
   fun _ => Except.ok ()⟩

/-- Every path present; a fixed five-page document readable, but every
write fails. -/
def envWriteFail : Env :=
  ⟨fun _ => true,
   fun _ => Except.ok [pageOk "A", pageOk "B", pageOk "C", pageOk "D", pageOk "E"],
   fun _ => Except.error "Permission denied"⟩

/-! ### Claims -/

/-- C9: for parameters passing validation (`1 ≤ start_page ≤ end_page`)
and the range check (`end_page ≤ page_count`), every page index visited
by the aggregation loop is within bounds (`i < page_count`), so the
per-page access never goes out of bounds even though `start_page` is
never separately compared against `page_count`. -/
theorem rangeIdx_indices_in_bounds (s e : Int) (pages : List Page)
    (hs : 1 ≤ s) (hse : s ≤ e) (hle : e ≤ (pages.length : Int)) :
    ∀ i ∈ rangeIdx s e, i < pages.length ∧ (pages[i]?).isSome := by
  intro i hi
  rw [rangeIdx, List.mem_range'_1] at hi
  have hlt : i < pages.length := by omega
  refine ⟨hlt, ?_⟩
  rw [List.getElem?_eq_getElem hlt]
  rfl

/-- Witness for C9 at `start_page = 2`, `end_page = 3`, index 2, on a
five-page document. -/
theorem rangeIdx_indices_in_bounds_witness :
    2 < [pageOk "A", pageOk "B", pageOk "C", pageOk "D", pageOk "E"].length
    ∧ ([pageOk "A", pageOk "B", pageOk "C", pageOk "D", pageOk "E"][2]?).isSome :=
  rangeIdx_indices_in_bounds 2 3
    [pageOk "A", pageOk "B", pageOk "C", pageOk "D", pageOk "E"]
    (by decide) (by decide) (by decide) 2 (by decide)

/-- C3: every request violating a validation rule (blank path,
`start_page < 1`, `end_page < 1`, or `end_page < start_page`) is
answered with a validation-error string and an empty event trace — no
filesystem access happens — and the answer is identical under every
environment, so a nonexistent path still yields the validation error,
not the not-found error. -/
theorem validation_rejects_before_io (env env2 : Env) (fp : String)
    (s e : Int) (sv : Bool)
    (h : pyStrip fp = "" ∨ s < 1 ∨ e < 1 ∨ e < s) :
    (∃ msg, open_and_split_pdf env fp s e sv =
      ("Error: Invalid input parameters - " ++ msg, []))
    ∧ open_and_split_pdf env fp s e sv = open_and_split_pdf env2 fp s e sv := by
  have hval : ∃ msg, validateParams fp s e sv = Except.error msg := by
    by_cases h1 : pyStrip fp = ""
    · exact ⟨_, by rw [validateParams, if_pos h1]⟩
    · by_cases h2 : s < 1
      · exact ⟨_, by rw [validateParams, if_neg h1, if_pos h2]⟩
      · by_cases h3 : e < 1
        · exact ⟨_, by rw [validateParams, if_neg h1, if_neg h2, if_pos h3]⟩
        · by_cases h4 : e < s
          · exact ⟨_, by rw [validateParams, if_neg h1, if_neg h2, if_neg h3, if_pos h4]⟩
          · rcases h with h | h | h | h
            · exact absurd h h1
            · omega
            · omega
            · omega
  obtain ⟨msg, hval⟩ := hval
  refine ⟨⟨msg, run_validation_failure env fp s e sv msg hval⟩, ?_⟩
  rw [run_validation_failure env fp s e sv msg hval,
    run_validation_failure env2 fp s e sv msg hval]

/-- Witness for C3: `end_page < start_page` with a path that exists in
one environment and not in the other; both give the same
validation-error answer with no events. -/
theorem validation_rejects_before_io_witness :
    (∃ msg, open_and_split_pdf envAbsent "missing.pdf" 2 1 false =
      ("Error: Invalid input parameters - " ++ msg, []))
    ∧ open_and_split_pdf envAbsent "missing.pdf" 2 1 false =
        open_and_split_pdf envFive "missing.pdf" 2 1 false :=
  validation_rejects_before_io envAbsent envFive "missing.pdf" 2 1 false
    (Or.inr (Or.inr (Or.inr (by decide))))

/-- C4: a validated request on a path absent from the filesystem
answers with the not-found string naming the path, and the codec's
document-open operation is never invoked: the trace holds exactly the
existence check and no `openDoc` event. -/
theorem absent_path_not_found (env : Env) (fp : String) (s e : Int)
    (sv : Bool)
    (hfp : ¬ pyStrip fp = "") (hs : 1 ≤ s) (hse : s ≤ e)
    (hex : env.pathExists fp = false) :
    open_and_split_pdf env fp s e sv =
      ("Error: File \x27" ++ fp ++ "\x27 does not exist", [Event.checkExists fp])
    ∧ ∀ p, Event.openDoc p ∉ (open_and_split_pdf env fp s e sv).2 := by
  have hrun := run_not_found env fp s e sv hfp hs hse hex
  refine ⟨hrun, ?_⟩
  intro p
  rw [hrun]
  simp

/-- Witness for C4 on a concrete absent path. -/
theorem absent_path_not_found_witness :
    open_and_split_pdf envAbsent "missing.pdf" 1 2 false =
      ("Error: File \x27missing.pdf\x27 does not exist",
       [Event.checkExists "missing.pdf"])
    ∧ ∀ p, Event.openDoc p ∉ (open_and_split_pdf envAbsent "missing.pdf" 1 2 false).2 :=
  absent_path_not_found envAbsent "missing.pdf" 1 2 false (by decide)
    (by decide) (by decide) (by decide)

/-- Appending on the right keeps the first character. -/
theorem append_data_head (p x : String) (c : Char)
    (h : p.data.head? = some c) : (p ++ x).data.head? = some c := by
  rw [String.data_append]
  cases hp : p.data with
  | nil => rw [hp] at h; exact absurd h (by simp)
  | cons a l =>
    rw [hp] at h
    simp only [List.head?_cons, Option.some.injEq] at h
    subst h
    rfl

/-- Two appends whose left parts start with different characters are
different strings. -/
theorem append_ne_of_head_ne (p q x y : String) (c d : Char)
    (hp : p.data.head? = some c) (hq : q.data.head? = some d)
    (hcd : c ≠ d) : p ++ x ≠ q ++ y := by
  intro h
  apply hcd
  have h1 := append_data_head p x c hp
  have h2 := append_data_head q y d hq
  rw [h, h2] at h1
  exact (Option.some.inj h1).symm

/-- C1: for validated parameters on an existing, readable document with
`page_count ≥ end_page` (every page extraction succeeding, and the save
succeeding when requested), the result is
`"Content from new PDF:\n\n"` followed by the per-page records joined
with a single newline: exactly `(e - s + 1)` records in ascending page
order, the record for 1-indexed page `n` being
`"--- Page {n} ---\n{text of page n}"` with `n` running from `s` to
`e`. -/
theorem extraction_success_record_shape (env : Env) (fp : String)
    (s e : Int) (sv : Bool) (pages : List Page) (t : Nat → String)
    (hfp : ¬ pyStrip fp = "") (hs : 1 ≤ s) (hse : s ≤ e)
    (hex : env.pathExists fp = true)
    (hopen : env.openDoc fp = Except.ok pages)
    (hle : e ≤ (pages.length : Int))
    (hext : ∀ i ∈ rangeIdx s e,
      ∃ pg, pages[i]? = some pg ∧ pg.extractText = Except.ok (t i))
    (hwr : sv = true → env.writeFile (newFilePath fp s e) = Except.ok ()) :
    (open_and_split_pdf env fp s e sv).1 =
      "Content from new PDF:\n\n" ++ String.intercalate "\n"
        ((List.range' s.toNat (e - s + 1).toNat).map
          (fun n => "--- Page " ++ toString n ++ " ---\n" ++ t (n - 1)))
    ∧ ((List.range' s.toNat (e - s + 1).toNat).map
        (fun n => "--- Page " ++ toString n ++ " ---\n" ++ t (n - 1))).length
        = (e - s + 1).toNat := by
  have hloop := splitLoop_ok pages t (rangeIdx s e) hext
  have hrec := rangeIdx_map_records s e t hs hse
  constructor
  · cases sv with
    | false =>
      rw [run_success_nosave env fp s e pages _ hfp hs hse hex hopen hle hloop]
      rw [show ((successHeader ++ String.intercalate "\n"
          ((rangeIdx s e).map (fun i => pageRecord i (t i))),
          [Event.checkExists fp, Event.openDoc fp]) : String × List Event).1
          = successHeader ++ String.intercalate "\n"
            ((rangeIdx s e).map (fun i => pageRecord i (t i))) from rfl]
      rw [hrec]
      rfl
    | true =>
      rw [run_success_save env fp s e pages _ hfp hs hse hex hopen hle hloop
        (hwr rfl)]
      rw [show ((successHeader ++ String.intercalate "\n"
          ((rangeIdx s e).map (fun i => pageRecord i (t i))),
          [Event.checkExists fp, Event.openDoc fp,
           Event.writeFile (newFilePath fp s e)]) : String × List Event).1
          = successHeader ++ String.intercalate "\n"
            ((rangeIdx s e).map (fun i => pageRecord i (t i))) from rfl]
      rw [hrec]
      rfl
  · rw [List.length_map, List.length_range']

/-- Witness for C1: pages 2–3 of a five-page document. -/
theorem extraction_success_record_shape_witness :
    (open_and_split_pdf envFive "report.pdf" 2 3 false).1 =
      "Content from new PDF:\n\n" ++ String.intercalate "\n"
        ((List.range' (2 : Int).toNat ((3 : Int) - 2 + 1).toNat).map
          (fun n => "--- Page " ++ toString n ++ " ---\n"
            ++ ["A", "B", "C", "D", "E"].getD (n - 1) ""))
    ∧ ((List.range' (2 : Int).toNat ((3 : Int) - 2 + 1).toNat).map
        (fun n => "--- Page " ++ toString n ++ " ---\n"
          ++ ["A", "B", "C", "D", "E"].getD (n - 1) "")).length
        = ((3 : Int) - 2 + 1).toNat :=
  extraction_success_record_shape envFive "report.pdf" 2 3 false
    [pageOk "A", pageOk "B", pageOk "C", pageOk "D", pageOk "E"]
    (fun i => ["A", "B", "C", "D", "E"].getD i "")
    (by decide) (by decide) (by decide) rfl rfl (by decide)
    (by
      intro i hi
      rw [show rangeIdx 2 3 = [1, 2] from rfl] at hi
      have h2 : i = 1 ∨ i = 2 := by simpa using hi
      rcases h2 with rfl | rfl
      · exact ⟨pageOk "B", rfl, rfl⟩
      · exact ⟨pageOk "C", rfl, rfl⟩)
    (by intro h; exact absurd h (by decide))

/-- C2: for validated parameters on an existing, readable document
shorter than `end_page`, the operation fails with the range-exceeded
error string, which mentions both the requested page (`end_page`) and
the available page count; the range is never clamped — the answer is
the error pair, not a truncated success. -/
theorem range_exceeded_no_clamp (env : Env) (fp : String) (s e : Int)
    (sv : Bool) (pages : List Page)
    (hfp : ¬ pyStrip fp = "") (hs : 1 ≤ s) (hse : s ≤ e)
    (hex : env.pathExists fp = true)
    (hopen : env.openDoc fp = Except.ok pages)
    (hgt : (pages.length : Int) < e) :
    open_and_split_pdf env fp s e sv =
      ("Error reading PDF \x27" ++ fp ++ "\x27: Requested page " ++ toString e
        ++ " exceeds the document length (" ++ toString pages.length
        ++ " pages).",
       [Event.checkExists fp, Event.openDoc fp])
    ∧ ∃ pre mid post, (open_and_split_pdf env fp s e sv).1 =
        pre ++ (toString e ++ (mid ++ (toString pages.length ++ post))) := by
  have hrun := run_range_exceeded env fp s e sv pages hfp hs hse hex hopen hgt
  refine ⟨hrun, "Error reading PDF \x27" ++ fp ++ "\x27: Requested page ",
    " exceeds the document length (", " pages).", ?_⟩
  rw [hrun]
  simp [String.append_assoc]

/-- Witness for C2: pages 1–10 requested of a five-page document. -/
theorem range_exceeded_no_clamp_witness :
    open_and_split_pdf envFive "report.pdf" 1 10 false =
      ("Error reading PDF \x27report.pdf\x27: Requested page "
        ++ toString (10 : Int) ++ " exceeds the document length ("
        ++ toString [pageOk "A", pageOk "B", pageOk "C", pageOk "D",
            pageOk "E"].length ++ " pages).",
       [Event.checkExists "report.pdf", Event.openDoc "report.pdf"])
    ∧ ∃ pre mid post, (open_and_split_pdf envFive "report.pdf" 1 10 false).1 =
        pre ++ (toString (10 : Int) ++ (mid
          ++ (toString [pageOk "A", pageOk "B", pageOk "C", pageOk "D",
              pageOk "E"].length ++ post))) :=
  range_exceeded_no_clamp envFive "report.pdf" 1 10 false
    [pageOk "A", pageOk "B", pageOk "C", pageOk "D", pageOk "E"]
    (by decide) (by decide) (by decide) rfl rfl (by decide)

/-- C5: when `save_pdf` is true and serializing the output document to
the derived path fails, the whole operation fails: the answer is the
reading-error pair carrying the write failure, and the
already-computed extracted text is not returned (the answer is never of
the success form). -/
theorem write_failure_aborts (env : Env) (fp : String) (s e : Int)
    (pages : List Page) (t : Nat → String) (msg : String)
    (hfp : ¬ pyStrip fp = "") (hs : 1 ≤ s) (hse : s ≤ e)
    (hex : env.pathExists fp = true)
    (hopen : env.openDoc fp = Except.ok pages)
    (hle : e ≤ (pages.length : Int))
    (hext : ∀ i ∈ rangeIdx s e,
      ∃ pg, pages[i]? = some pg ∧ pg.extractText = Except.ok (t i))
    (hwr : env.writeFile (newFilePath fp s e) = Except.error msg) :
    open_and_split_pdf env fp s e true =
      ("Error reading PDF \x27" ++ fp ++ "\x27: " ++ msg,
       [Event.checkExists fp, Event.openDoc fp,
        Event.writeFile (newFilePath fp s e)])
    ∧ ∀ r, (open_and_split_pdf env fp s e true).1 ≠ successHeader ++ r := by
  have hloop := splitLoop_ok pages t (rangeIdx s e) hext
  have hrun := run_write_failure env fp s e pages _ msg hfp hs hse hex hopen
    hle hloop hwr
  refine ⟨hrun, ?_⟩
  intro r
  rw [hrun]
  show "Error reading PDF \x27" ++ fp ++ "\x27: " ++ msg ≠ successHeader ++ r
  rw [String.append_assoc, String.append_assoc]
  exact append_ne_of_head_ne "Error reading PDF \x27" successHeader
    (fp ++ ("\x27: " ++ msg)) r (Char.ofNat 69) (Char.ofNat 67)
    (by decide) (by decide) (by decide)

/-- Witness for C5: a write failure on page 1 of a five-page document. -/
theorem write_failure_aborts_witness :
    open_and_split_pdf envWriteFail "report.pdf" 1 1 true =
      ("Error reading PDF \x27report.pdf\x27: Permission denied",
       [Event.checkExists "report.pdf", Event.openDoc "report.pdf",
        Event.writeFile (newFilePath "report.pdf" 1 1)])
    ∧ ∀ r, (open_and_split_pdf envWriteFail "report.pdf" 1 1 true).1
        ≠ successHeader ++ r :=
  write_failure_aborts envWriteFail "report.pdf" 1 1
    [pageOk "A", pageOk "B", pageOk "C", pageOk "D", pageOk "E"]
    (fun i => ["A", "B", "C", "D", "E"].getD i "") "Permission denied"
    (by decide) (by decide) (by decide) rfl rfl (by decide)
    (by
      intro i hi
      rw [show rangeIdx 1 1 = [0] from rfl] at hi
      have h2 : i = 0 := by simpa using hi
      subst h2
      exact ⟨pageOk "A", rfl, rfl⟩)
    rfl

/-- C6 as stated is false: the second page of a three-page document
fails to extract ("boom"); the operation returns
`"Error reading PDF \x27a.pdf\x27: boom"`, a string containing no digit
at all, hence identifying no page index. -/
theorem extraction_failure_error_lacks_page_index :
    (open_and_split_pdf envExtractFail "a.pdf" 1 3 false).1
        = "Error reading PDF \x27a.pdf\x27: boom"
    ∧ ∀ c ∈ ((open_and_split_pdf envExtractFail "a.pdf" 1 3 false).1).data,
        ¬ c.isDigit := by
  decide

/-- C6 (amended): any single-page extraction failure aborts the whole
operation with the reading-error answer naming the file path and the
codec's reason; no partial result — no subset of page records — is ever
returned (the answer is never of the success form). -/
theorem extraction_failure_aborts (env : Env) (fp : String) (s e : Int)
    (sv : Bool) (pages : List Page) (msg : String) (i : Nat)
    (pre post : List Nat)
    (hfp : ¬ pyStrip fp = "") (hs : 1 ≤ s) (hse : s ≤ e)
    (hex : env.pathExists fp = true)
    (hopen : env.openDoc fp = Except.ok pages)
    (hle : e ≤ (pages.length : Int))
    (hsplit : rangeIdx s e = pre ++ i :: post)
    (hpre : ∀ j ∈ pre,
      ∃ pg txt, pages[j]? = some pg ∧ pg.extractText = Except.ok txt)
    (hfail : ∃ pg, pages[i]? = some pg ∧ pg.extractText = Except.error msg) :
    open_and_split_pdf env fp s e sv =
      ("Error reading PDF \x27" ++ fp ++ "\x27: " ++ msg,
       [Event.checkExists fp, Event.openDoc fp])
    ∧ ∀ r, (open_and_split_pdf env fp s e sv).1 ≠ successHeader ++ r := by
  have hloop : splitLoop pages (rangeIdx s e) = Except.error msg := by
    rw [hsplit]
    exact splitLoop_err pages msg i post pre hpre hfail
  have hrun := run_loop_failure env fp s e sv pages msg hfp hs hse hex hopen
    hle hloop
  refine ⟨hrun, ?_⟩
  intro r
  rw [hrun]
  show "Error reading PDF \x27" ++ fp ++ "\x27: " ++ msg ≠ successHeader ++ r
  rw [String.append_assoc, String.append_assoc]
  exact append_ne_of_head_ne "Error reading PDF \x27" successHeader
    (fp ++ ("\x27: " ++ msg)) r (Char.ofNat 69) (Char.ofNat 67)
    (by decide) (by decide) (by decide)

/-- Witness for the amended C6: extraction of page 2 (index 1) fails
after page 1 succeeded. -/
theorem extraction_failure_aborts_witness :
    open_and_split_pdf envExtractFail "sample.pdf" 1 3 false =
      ("Error reading PDF \x27sample.pdf\x27: boom",
       [Event.checkExists "sample.pdf", Event.openDoc "sample.pdf"])
    ∧ ∀ r, (open_and_split_pdf envExtractFail "sample.pdf" 1 3 false).1
        ≠ successHeader ++ r :=
  extraction_failure_aborts envExtractFail "sample.pdf" 1 3 false
    [pageOk "A", pageBad "boom", pageOk "C"] "boom" 1 [0] [2]
    (by decide) (by decide) (by decide) rfl rfl (by decide) rfl
    (by
      intro j hj
      have h2 : j = 0 := by simpa using hj
      subst h2
      exact ⟨pageOk "A", "A", rfl, rfl⟩)
    ⟨pageBad "boom", rfl, rfl⟩

/-- C7: every successful request with `save_pdf` true writes exactly
once, at the path formed from the parent directory of the input path,
the stem of the input path, the literal infix
`_pgs_{start_page}-{end_page}`, and the original suffix; the trace holds
no other filesystem interaction — in particular no existence check of
the output path — so an existing file there is overwritten silently and
never reported as an error, and the operation still succeeds. -/
theorem save_writes_derived_path (env : Env) (fp : String) (s e : Int)
    (pages : List Page) (t : Nat → String)
    (hfp : ¬ pyStrip fp = "") (hs : 1 ≤ s) (hse : s ≤ e)
    (hex : env.pathExists fp = true)
    (hopen : env.openDoc fp = Except.ok pages)
    (hle : e ≤ (pages.length : Int))
    (hext : ∀ i ∈ rangeIdx s e,
      ∃ pg, pages[i]? = some pg ∧ pg.extractText = Except.ok (t i))
    (hwr : env.writeFile (newFilePath fp s e) = Except.ok ()) :
    (open_and_split_pdf env fp s e true).2 =
      [Event.checkExists fp, Event.openDoc fp,
       Event.writeFile (pathJoin (pathParent fp)
         (pathStem fp ++ "_pgs_" ++ toString s ++ "-" ++ toString e
           ++ pathSuffix fp))]
    ∧ ∃ r, (open_and_split_pdf env fp s e true).1 = successHeader ++ r := by
  have hloop := splitLoop_ok pages t (rangeIdx s e) hext
  have hrun := run_success_save env fp s e pages _ hfp hs hse hex hopen hle
    hloop hwr
  rw [hrun]
  exact ⟨rfl, _, rfl⟩

/-- Witness for C7: saving pages 1–2 of `dir/report.pdf` writes
`dir/report_pgs_1-2.pdf`. -/
theorem save_writes_derived_path_witness :
    (open_and_split_pdf envFive "dir/report.pdf" 1 2 true).2 =
      [Event.checkExists "dir/report.pdf", Event.openDoc "dir/report.pdf",
       Event.writeFile (pathJoin (pathParent "dir/report.pdf")
         (pathStem "dir/report.pdf" ++ "_pgs_" ++ toString (1 : Int) ++ "-"
           ++ toString (2 : Int) ++ pathSuffix "dir/report.pdf"))]
    ∧ ∃ r, (open_and_split_pdf envFive "dir/report.pdf" 1 2 true).1
        = successHeader ++ r :=
  save_writes_derived_path envFive "dir/report.pdf" 1 2
    [pageOk "A", pageOk "B", pageOk "C", pageOk "D", pageOk "E"]
    (fun i => ["A", "B", "C", "D", "E"].getD i "")
    (by decide) (by decide) (by decide) rfl rfl (by decide)
    (by
      intro i hi
      rw [show rangeIdx 1 2 = [0, 1] from rfl] at hi
      have h2 : i = 0 ∨ i = 1 := by simpa using hi
      rcases h2 with rfl | rfl
      · exact ⟨pageOk "A", rfl, rfl⟩
      · exact ⟨pageOk "B", rfl, rfl⟩)
    rfl

/-- A string prefix survives appending on the right. -/
theorem error_isPrefix (p x : String) (h : "Error".data <+: p.data) :
    "Error".data <+: (p ++ x).data := by
  rw [String.data_append]
  exact h.trans (List.prefix_append p.data x.data)

/-- A string is a prefix of itself followed by anything. -/
theorem isPrefix_append_data (p x : String) : p.data <+: (p ++ x).data := by
  rw [String.data_append]
  exact List.prefix_append p.data x.data

/-- C8: for every input and every environment the operation returns a
plain string — the embedding is a total function, so no exception ever
crosses the tool boundary — and that string either begins with
`"Error"` (every failure of the pipeline) or is a success answer
beginning with the content header. -/
theorem tool_boundary_string_form (env : Env) (fp : String) (s e : Int)
    (sv : Bool) :
    "Error".data <+: ((open_and_split_pdf env fp s e sv).1).data
    ∨ "Content from new PDF:\n\n".data
        <+: ((open_and_split_pdf env fp s e sv).1).data := by
  unfold open_and_split_pdf
  split
  · exact Or.inl (error_isPrefix _ _ (by decide))
  · split
    · exact Or.inl (error_isPrefix _ _ (error_isPrefix _ _ (by decide)))
    · split
      · exact Or.inl (error_isPrefix _ _ (error_isPrefix _ _
          (error_isPrefix _ _ (by decide))))
      · split
        · exact Or.inl (error_isPrefix _ _ (error_isPrefix _ _
            (error_isPrefix _ _ (error_isPrefix _ _ (error_isPrefix _ _
              (error_isPrefix _ _ (by decide)))))))
        · split
          · exact Or.inl (error_isPrefix _ _ (error_isPrefix _ _
              (error_isPrefix _ _ (by decide))))
          · split
            · dsimp only
              split
              · exact Or.inl (error_isPrefix _ _ (error_isPrefix _ _
                  (error_isPrefix _ _ (by decide))))
              · exact Or.inr (isPrefix_append_data successHeader _)
            · exact Or.inr (isPrefix_append_data successHeader _)

/-- C10: a `file_path` with surrounding whitespace that is non-blank
after stripping passes validation and is returned unchanged — no
trimming or normalization — and the original untrimmed string is the
one used for the filesystem existence check, for opening the document,
and for deriving the output path. -/
theorem untrimmed_path_used_throughout (envA envB : Env) (fp : String)
    (s e : Int) (sv : Bool) (pages : List Page) (t : Nat → String)
    (_hws : ¬ pyStrip fp = fp)
    (hfp : ¬ pyStrip fp = "") (hs : 1 ≤ s) (hse : s ≤ e)
    (hexA : envA.pathExists fp = false)
    (hexB : envB.pathExists fp = true)
    (hopen : envB.openDoc fp = Except.ok pages)
    (hle : e ≤ (pages.length : Int))
    (hext : ∀ i ∈ rangeIdx s e,
      ∃ pg, pages[i]? = some pg ∧ pg.extractText = Except.ok (t i))
    (hwr : envB.writeFile (newFilePath fp s e) = Except.ok ()) :
    validateParams fp s e sv = Except.ok ⟨fp, s, e, sv⟩
    ∧ (open_and_split_pdf envA fp s e sv).2 = [Event.checkExists fp]
    ∧ (open_and_split_pdf envB fp s e true).2 =
        [Event.checkExists fp, Event.openDoc fp,
         Event.writeFile (newFilePath fp s e)] := by
  refine ⟨validateParams_ok fp s e sv hfp hs hse, ?_, ?_⟩
  · rw [run_not_found envA fp s e sv hfp hs hse hexA]
  · have hloop := splitLoop_ok pages t (rangeIdx s e) hext
    rw [run_success_save envB fp s e pages _ hfp hs hse hexB hopen hle hloop hwr]

/-- Witness for C10 on the path `" a.pdf "` (whitespace around a
non-blank name). -/
theorem untrimmed_path_used_throughout_witness :
    validateParams " a.pdf " 1 1 false = Except.ok ⟨" a.pdf ", 1, 1, false⟩
    ∧ (open_and_split_pdf envAbsent " a.pdf " 1 1 false).2 =
        [Event.checkExists " a.pdf "]
    ∧ (open_and_split_pdf envFive " a.pdf " 1 1 true).2 =
        [Event.checkExists " a.pdf ", Event.openDoc " a.pdf ",
         Event.writeFile (newFilePath " a.pdf " 1 1)] :=
  untrimmed_path_used_throughout envAbsent envFive " a.pdf " 1 1 false
    [pageOk "A", pageOk "B", pageOk "C", pageOk "D", pageOk "E"]
    (fun i => ["A", "B", "C", "D", "E"].getD i "")
    (by decide) (by decide) (by decide) (by decide) rfl rfl rfl (by decide)
    (by
      intro i hi
      rw [show rangeIdx 1 1 = [0] from rfl] at hi
      have h2 : i = 0 := by simpa using hi
      subst h2
      exact ⟨pageOk "A", rfl, rfl⟩)
    rfl

end PdfTool
